import Mathlib

/-!
Shallow embedding of `src/components/AudioRecorderDemo.tsx`
(repository DemoMikrofonLautsprecherFixed).

The component is a state-holder over the expo-av / expo-sharing providers.
We embed its six React state variables (`recording`, `recordedURI`,
`isRecording`, `sound`, `isPlaying`, `error`) as a record, plus ghost
fields that track which platform handles are live: a recording handle
becomes live when `prepareToRecordAsync` + `startAsync` succeed and dies
at a successful `stopAndUnloadAsync`; a sound handle becomes live at a
successful `Audio.Sound.createAsync` and dies at a successful
`unloadAsync`.  Handles are numbered by a fresh-id counter.

Each provider call may succeed or fail (throw); an environment record per
operation chooses the outcome of each awaited call, exactly in the order
the source awaits them.  The handler bodies are translated branch by
branch from the source: a `try`/`catch` turns a failing await into the
`setError` of the catch block, and `stopPlayback`, which has no
`try`/`catch` in the source, reports an escaped exception instead.
-/

namespace AudioRecorderDemo

/-- The React state of the component (lines 10-16 of the source), plus
ghost bookkeeping of live platform handles. -/
structure ControllerState where
  /-- `recording : Audio.Recording | null`, as the id of the held handle. -/
  recording : Option Nat
  /-- `recordedURI : string | null`. -/
  recordedURI : Option String
  /-- `isRecording : boolean`. -/
  isRecording : Bool
  /-- `sound : Audio.Sound | null`, as the id of the held handle. -/
  sound : Option Nat
  /-- `isPlaying : boolean`. -/
  isPlaying : Bool
  /-- `error : string | null`. -/
  error : Option String
  /-- Ghost: ids of recording handles that are live (started, never
  stopped-and-unloaded) on the platform side. -/
  liveRec : List Nat
  /-- Ghost: ids of sound handles that are loaded (created, never
  unloaded) on the platform side. -/
  liveSnd : List Nat
  /-- Ghost: fresh-id counter for new handles. -/
  nextId : Nat
  deriving Repr, DecidableEq

/-- The initial state: all `useState` initializers are `null` / `false`. -/
def initialState : ControllerState :=
  { recording := none, recordedURI := none, isRecording := false,
    sound := none, isPlaying := false, error := none,
    liveRec := [], liveSnd := [], nextId := 0 }

/-- Result of running one handler: the React state when the handler
returns (or at the throw point if an exception escapes), whether an
exception escaped the handler uncaught, and the share invocation the
handler performed, if any. -/
structure OpResult where
  state : ControllerState
  escaped : Bool
  shareCall : Option (String × String × String × String)
  deriving Repr, DecidableEq

/-- Android slice of the `prepareToRecordAsync` options (lines 57-64). -/
structure AndroidRecordingOptions where
  extension : String
  outputFormat : Nat
  audioEncoder : Nat
  sampleRate : Nat
  numberOfChannels : Nat
  bitRate : Nat
  deriving Repr, DecidableEq

/-- iOS slice of the `prepareToRecordAsync` options (lines 65-77). -/
structure IosRecordingOptions where
  extension : String
  audioQuality : Nat
  outputFormat : String
  bitDepthHint : Nat
  sampleRate : Nat
  numberOfChannels : Nat
  bitRate : Nat
  bitRateStrategy : Nat
  linearPCMBitDepth : Nat
  linearPCMIsBigEndian : Bool
  linearPCMIsFloat : Bool
  deriving Repr, DecidableEq

/-- Web slice of the `prepareToRecordAsync` options (lines 78-81). -/
structure WebRecordingOptions where
  mimeType : String
  bitsPerSecond : Nat
  deriving Repr, DecidableEq

/-- The full options literal of `prepareToRecordAsync` (lines 56-82). -/
structure RecordingOptions where
  android : AndroidRecordingOptions
  ios : IosRecordingOptions
  web : WebRecordingOptions
  deriving Repr, DecidableEq

/-- The fixed encoding configuration every recording is prepared with
(lines 56-82 of `startRecording`). -/
def recordingOptions : RecordingOptions :=
  { android :=
      { extension := ".wav", outputFormat := 0, audioEncoder := 0,
        sampleRate := 48000, numberOfChannels := 2, bitRate := 128000 },
    ios :=
      { extension := ".wav", audioQuality := 127, outputFormat := "lpcm",
        bitDepthHint := 32, sampleRate := 48000, numberOfChannels := 2,
        bitRate := 128000, bitRateStrategy := 0, linearPCMBitDepth := 32,
        linearPCMIsBigEndian := false, linearPCMIsFloat := false },
    web := { mimeType := "audio/wav", bitsPerSecond := 128000 } }

/-- Provider outcomes for one `startRecording()` call, in await order:
`Audio.requestPermissionsAsync` (throws / returns a status),
`Audio.setAudioModeAsync`, `prepareToRecordAsync`, `startAsync`. -/
structure StartEnv where
  permThrows : Bool
  granted : Bool
  modeOk : Bool
  prepareOk : Bool
  startOk : Bool
  deriving Repr, DecidableEq

/-- `startRecording` (lines 38-94).  All awaits are inside `try`; the
`catch` does `setError("Failed to start recording")`.  The
permission-denied branch (lines 42-45) only logs and returns.  On full
success the new handle is prepared with `recordingOptions`, started,
stored, and `isRecording` is set. -/
def startRecording (s : ControllerState) (e : StartEnv) : OpResult :=
  if e.permThrows then
    ⟨{ s with error := some "Failed to start recording" }, false, none⟩
  else if !e.granted then
    ⟨s, false, none⟩
  else if !e.modeOk then
    ⟨{ s with error := some "Failed to start recording" }, false, none⟩
  else if !e.prepareOk then
    ⟨{ s with error := some "Failed to start recording" }, false, none⟩
  else if !e.startOk then
    ⟨{ s with error := some "Failed to start recording" }, false, none⟩
  else
    ⟨{ s with recording := some s.nextId, isRecording := true,
              liveRec := s.nextId :: s.liveRec, nextId := s.nextId + 1 },
     false, none⟩

/-- Provider outcomes for one `stopRecording()` call, in await order:
`stopAndUnloadAsync`, the URI `getURI()` returns, and the trailing
`Audio.setAudioModeAsync`. -/
structure StopEnv where
  stopOk : Bool
  uri : Option String
  resetModeOk : Bool
  deriving Repr, DecidableEq

/-- `stopRecording` (lines 97-117).  No recording: plain `return`
(no-op).  If `stopAndUnloadAsync` throws, the `catch` only does
`setError("Failed to stop recording")`: the `setRecording(null)` /
`setIsRecording(false)` lines are never reached, so the handle stays
held and live.  On a successful stop the URI is stored, the handle
discarded, and the trailing audio-mode reset may still throw into the
same catch. -/
def stopRecording (s : ControllerState) (e : StopEnv) : OpResult :=
  match s.recording with
  | none => ⟨s, false, none⟩
  | some h =>
    if !e.stopOk then
      ⟨{ s with error := some "Failed to stop recording" }, false, none⟩
    else
      let s1 := { s with recordedURI := e.uri, recording := none,
                         isRecording := false, liveRec := s.liveRec.erase h }
      if !e.resetModeOk then
        ⟨{ s1 with error := some "Failed to stop recording" }, false, none⟩
      else
        ⟨s1, false, none⟩

/-- Provider outcomes for one `playRecording()` call, in await order:
`sound.unloadAsync` (only awaited when a previous sound exists),
`Audio.Sound.createAsync`, `setVolumeAsync`, `playAsync`. -/
structure PlayEnv where
  unloadOk : Bool
  createOk : Bool
  volumeOk : Bool
  playOk : Bool
  deriving Repr, DecidableEq

/-- The part of `playRecording` after the unload of a previous sound
(lines 131-152): create the sound, `setSound`, register the status
callback, `setVolumeAsync`, `setIsPlaying(true)`, `playAsync`; any throw
lands in the `catch` which does `setError("Failed to play recording")`.
Note the source sets `isPlaying` to `true` BEFORE awaiting `playAsync`
and the catch does not reset it. -/
def playRecordingLoad (s : ControllerState) (e : PlayEnv) : OpResult :=
  if !e.createOk then
    ⟨{ s with error := some "Failed to play recording" }, false, none⟩
  else
    let s1 := { s with sound := some s.nextId,
                       liveSnd := s.nextId :: s.liveSnd,
                       nextId := s.nextId + 1 }
    if !e.volumeOk then
      ⟨{ s1 with error := some "Failed to play recording" }, false, none⟩
    else
      let s2 := { s1 with isPlaying := true }
      if !e.playOk then
        ⟨{ s2 with error := some "Failed to play recording" }, false, none⟩
      else
        ⟨s2, false, none⟩

/-- `playRecording` (lines 120-153).  Without a `recordedURI` it sets
`error` to "No recording to play" and returns.  A previous sound is
unloaded first; a throw there, or in any later await, lands in the
`catch` which does `setError("Failed to play recording")`. -/
def playRecording (s : ControllerState) (e : PlayEnv) : OpResult :=
  match s.recordedURI with
  | none => ⟨{ s with error := some "No recording to play" }, false, none⟩
  | some _ =>
    match s.sound with
    | some h =>
      if !e.unloadOk then
        ⟨{ s with error := some "Failed to play recording" }, false, none⟩
      else
        playRecordingLoad { s with liveSnd := s.liveSnd.erase h } e
    | none => playRecordingLoad s e

/-- The playback-status callback registered by `playRecording`
(lines 136-140): when the status is loaded and `didJustFinish`, it does
`setIsPlaying(false)`; otherwise nothing. -/
def onPlaybackStatusUpdate (s : ControllerState)
    (isLoaded didJustFinish : Bool) : ControllerState :=
  if isLoaded && didJustFinish then { s with isPlaying := false } else s

/-- Provider outcome for one `stopPlayback()` call: `sound.stopAsync`. -/
structure StopPlaybackEnv where
  stopOk : Bool
  deriving Repr, DecidableEq

/-- `stopPlayback` (lines 155-160).  NOT wrapped in `try`/`catch`: if a
sound exists and `stopAsync` throws, the exception escapes the handler
and `setIsPlaying(false)` is never reached. -/
def stopPlayback (s : ControllerState) (e : StopPlaybackEnv) : OpResult :=
  match s.sound with
  | none => ⟨s, false, none⟩
  | some _ =>
    if !e.stopOk then
      ⟨s, true, none⟩
    else
      ⟨{ s with isPlaying := false }, false, none⟩

/-- Provider outcomes for one `shareRecording()` call, in await order:
`Sharing.isAvailableAsync` (throws / returns availability),
`FileSystem.getInfoAsync`, `Sharing.shareAsync`. -/
structure ShareEnv where
  availOk : Bool
  available : Bool
  getInfoOk : Bool
  shareOk : Bool
  deriving Repr, DecidableEq

/-- `shareRecording` (lines 162-190).  The missing-URI guard sits
outside the `try` and sets "No recording to share".  Inside the `try`:
unavailability sets "Sharing is not available on this device" and
returns before `shareAsync`; any throw lands in the `catch` which does
`setError("Failed to share recording")`.  When the share is reached it
is invoked on `recordedURI` with the literal options of lines 181-185:
`mimeType: "audio/m4a"`, `dialogTitle: "Share your audio recording"`,
`UTI: "public.audio"`. -/
def shareRecording (s : ControllerState) (e : ShareEnv) : OpResult :=
  match s.recordedURI with
  | none => ⟨{ s with error := some "No recording to share" }, false, none⟩
  | some uri =>
    if !e.availOk then
      ⟨{ s with error := some "Failed to share recording" }, false, none⟩
    else if !e.available then
      ⟨{ s with error := some "Sharing is not available on this device" },
       false, none⟩
    else if !e.getInfoOk then
      ⟨{ s with error := some "Failed to share recording" }, false, none⟩
    else if !e.shareOk then
      ⟨{ s with error := some "Failed to share recording" }, false,
       some (uri, "audio/m4a", "Share your audio recording", "public.audio")⟩
    else
      ⟨s, false,
       some (uri, "audio/m4a", "Share your audio recording", "public.audio")⟩

/-- One call to a handler of the component, with the provider outcomes
it will encounter; `statusUpdate` is the platform firing the playback
status callback with the given `isLoaded` / `didJustFinish` flags. -/
inductive Op where
  | startRec (e : StartEnv)
  | stopRec (e : StopEnv)
  | playRec (e : PlayEnv)
  | stopPlay (e : StopPlaybackEnv)
  | share (e : ShareEnv)
  | statusUpdate (isLoaded didJustFinish : Bool)
  deriving Repr, DecidableEq

/-- The state after one handler call (the React state as left behind,
whether or not an exception escaped). -/
def step (s : ControllerState) : Op → ControllerState
  | .startRec e => (startRecording s e).state
  | .stopRec e => (stopRecording s e).state
  | .playRec e => (playRecording s e).state
  | .stopPlay e => (stopPlayback s e).state
  | .share e => (shareRecording s e).state
  | .statusUpdate l f => onPlaybackStatusUpdate s l f

/-- The state after a sequence of handler calls. -/
def run (s : ControllerState) : List Op → ControllerState
  | [] => s
  | op :: ops => run (step s op) ops

/-- A trace respects the spec precondition of `startRecording` ("not
already recording"): `startRec` is only issued while no recording handle
is held.  The source itself never checks this. -/
def startGuardedB (s : ControllerState) : List Op → Bool
  | [] => true
  | op :: ops =>
    (match op with
     | .startRec _ => s.recording.isNone
     | _ => true) && startGuardedB (step s op) ops

/-- A trace serializes the two lifecycles: `startRec` is only issued
while not playing, and `playRec` only while not recording.  The source
itself never checks either. -/
def serializedB (s : ControllerState) : List Op → Bool
  | [] => true
  | op :: ops =>
    (match op with
     | .startRec _ => !s.isPlaying
     | .playRec _ => !s.isRecording
     | _ => true) && serializedB (step s op) ops

/-- Handle invariant, recording side: at most one live recording handle,
and if one is live it is the one the `recording` state variable holds. -/
def recHandleInv (s : ControllerState) : Prop :=
  s.liveRec = [] ∨ ∃ h, s.liveRec = [h] ∧ s.recording = some h

/-- Handle invariant, playback side: at most one loaded sound handle,
and if one is loaded it is the one the `sound` state variable holds. -/
def sndHandleInv (s : ControllerState) : Prop :=
  s.liveSnd = [] ∨ ∃ h, s.liveSnd = [h] ∧ s.sound = some h

/-- `startRecording` environment where every provider call succeeds and
permission is granted. -/
def allOkStart : StartEnv := ⟨false, true, true, true, true⟩

/-- `stopRecording` environment where every provider call succeeds and
`getURI()` returns a file URI. -/
def allOkStop : StopEnv := ⟨true, some "file:///recording.wav", true⟩

/-- `playRecording` environment where every provider call succeeds. -/
def allOkPlay : PlayEnv := ⟨true, true, true, true⟩

/-- `shareRecording` environment where sharing is available and every
provider call succeeds. -/
def allOkShare : ShareEnv := ⟨true, true, true, true⟩

/-- A state holding a live recording handle, as produced by one
successful `startRecording` from the initial state. -/
def recState : ControllerState :=
  { initialState with recording := some 0, isRecording := true,
                      liveRec := [0], nextId := 1 }

/-- A state holding a recorded asset and nothing else, as produced by a
successful `startRecording`; `stopRecording` pair. -/
def uriState : ControllerState :=
  { initialState with recordedURI := some "file:///recording.wav",
                      nextId := 1 }

/-- A state holding a recorded asset and a loaded, playing sound, as
produced by a successful record; stop; play sequence. -/
def sndState : ControllerState :=
  { initialState with recordedURI := some "file:///recording.wav",
                      sound := some 1, isPlaying := true,
                      liveSnd := [1], nextId := 2 }

/-- A concrete fully successful record; stop; play; stop; share trace,
used to instantiate the trace theorems. -/
def demoOps : List Op :=
  [.startRec allOkStart, .stopRec allOkStop, .playRec allOkPlay,
   .stopPlay ⟨true⟩, .share allOkShare]

/-- Claim C2 (amended): when the microphone permission request completes
without throwing and is not granted, `startRecording` aborts with the
whole state — recording handle, recorded asset, `isRecording`,
`isPlaying` AND the latest-error value — unchanged, no exception
escaping and no share performed.  Contrary to the claim as stated, no
error is surfaced: the denial is only logged to the console. -/
theorem claim_C2 (s : ControllerState) (e : StartEnv)
    (h1 : e.permThrows = false) (h2 : e.granted = false) :
    startRecording s e = ⟨s, false, none⟩ := by
  simp [startRecording, h1, h2]

/-- Witness for C2 at a concrete denied-permission run from the initial
state. -/
theorem claim_C2_witness :
    startRecording initialState ⟨false, false, true, true, true⟩ =
      ⟨initialState, false, none⟩ :=
  claim_C2 initialState ⟨false, false, true, true, true⟩ rfl rfl

/-- Counterexample to C2 as stated: after a denied permission request
the latest-error value is still `none` — the failure is NOT surfaced to
the caller as the latest-error value. -/
theorem claim_C2_cex :
    (startRecording initialState ⟨false, false, true, true, true⟩).state.error
      = none := rfl

/-- Claim C3 (amended): when a recording handle exists and
`stopAndUnloadAsync` fails, `stopRecording` surfaces
"Failed to stop recording" but — contrary to the claim as stated — the
`catch` block never clears the handle: the RecordingHandle stays held
(dangling) and `isRecording` stays exactly as it was (true for any state
reached by a successful start); only the error field changes. -/
theorem claim_C3 (s : ControllerState) (e : StopEnv) (h0 : Nat)
    (h1 : s.recording = some h0) (h2 : e.stopOk = false) :
    stopRecording s e =
      ⟨{ s with error := some "Failed to stop recording" }, false, none⟩ := by
  simp [stopRecording, h1, h2]

/-- Witness for C3 at a concrete failing stop on a recording state. -/
theorem claim_C3_witness :
    stopRecording recState ⟨false, none, true⟩ =
      ⟨{ recState with error := some "Failed to stop recording" },
       false, none⟩ :=
  claim_C3 recState ⟨false, none, true⟩ 0 rfl rfl

/-- Counterexample to C3 as stated: after a failing finalize the handle
is still held and the state is still treated as recording, while the
claim demands the handle be discarded and `isRecording = false`. -/
theorem claim_C3_cex :
    (stopRecording recState ⟨false, none, true⟩).state.recording = some 0 ∧
    (stopRecording recState ⟨false, none, true⟩).state.isRecording = true :=
  ⟨rfl, rfl⟩

/-- Claim C4 (amended): with an existing AudioAsset, every failing
`playRecording` surfaces "Failed to play recording"; a failure while
unloading the previous sound, loading the asset, or setting the volume
leaves `isPlaying` unchanged, but — contrary to the claim as stated — a
failure of the start-playback call itself leaves `isPlaying = true`,
because the source sets the flag before awaiting `playAsync` and the
`catch` does not reset it. -/
theorem claim_C4 (s : ControllerState) (e : PlayEnv) (u : String)
    (hu : s.recordedURI = some u) :
    (s.sound.isSome = true → e.unloadOk = false →
      (playRecording s e).state.error = some "Failed to play recording" ∧
      (playRecording s e).state.isPlaying = s.isPlaying) ∧
    ((s.sound.isSome = true → e.unloadOk = true) → e.createOk = false →
      (playRecording s e).state.error = some "Failed to play recording" ∧
      (playRecording s e).state.isPlaying = s.isPlaying) ∧
    ((s.sound.isSome = true → e.unloadOk = true) → e.createOk = true →
        e.volumeOk = false →
      (playRecording s e).state.error = some "Failed to play recording" ∧
      (playRecording s e).state.isPlaying = s.isPlaying) ∧
    ((s.sound.isSome = true → e.unloadOk = true) → e.createOk = true →
        e.volumeOk = true → e.playOk = false →
      (playRecording s e).state.error = some "Failed to play recording" ∧
      (playRecording s e).state.isPlaying = true) := by
  refine ⟨?_, ?_, ?_, ?_⟩
  · intro hsnd h1
    rcases hs : s.sound with _ | h
    · simp [hs] at hsnd
    · simp [playRecording, hu, hs, h1]
  · intro himp h2
    rcases hs : s.sound with _ | h
    · simp [playRecording, playRecordingLoad, hu, hs, h2]
    · have h1 : e.unloadOk = true := himp (by simp [hs])
      simp [playRecording, playRecordingLoad, hu, hs, h1, h2]
  · intro himp h2 h3
    rcases hs : s.sound with _ | h
    · simp [playRecording, playRecordingLoad, hu, hs, h2, h3]
    · have h1 : e.unloadOk = true := himp (by simp [hs])
      simp [playRecording, playRecordingLoad, hu, hs, h1, h2, h3]
  · intro himp h2 h3 h4
    rcases hs : s.sound with _ | h
    · simp [playRecording, playRecordingLoad, hu, hs, h2, h3, h4]
    · have h1 : e.unloadOk = true := himp (by simp [hs])
      simp [playRecording, playRecordingLoad, hu, hs, h1, h2, h3, h4]

/-- Witness for C4 at a concrete state with an asset and a failing
start-playback call. -/
theorem claim_C4_witness :
    ((uriState.sound.isSome = true → (⟨true, true, true, false⟩ : PlayEnv).unloadOk = false →
      (playRecording uriState ⟨true, true, true, false⟩).state.error = some "Failed to play recording" ∧
      (playRecording uriState ⟨true, true, true, false⟩).state.isPlaying = uriState.isPlaying) ∧
    ((uriState.sound.isSome = true → (⟨true, true, true, false⟩ : PlayEnv).unloadOk = true) → (⟨true, true, true, false⟩ : PlayEnv).createOk = false →
      (playRecording uriState ⟨true, true, true, false⟩).state.error = some "Failed to play recording" ∧
      (playRecording uriState ⟨true, true, true, false⟩).state.isPlaying = uriState.isPlaying) ∧
    ((uriState.sound.isSome = true → (⟨true, true, true, false⟩ : PlayEnv).unloadOk = true) → (⟨true, true, true, false⟩ : PlayEnv).createOk = true →
        (⟨true, true, true, false⟩ : PlayEnv).volumeOk = false →
      (playRecording uriState ⟨true, true, true, false⟩).state.error = some "Failed to play recording" ∧
      (playRecording uriState ⟨true, true, true, false⟩).state.isPlaying = uriState.isPlaying) ∧
    ((uriState.sound.isSome = true → (⟨true, true, true, false⟩ : PlayEnv).unloadOk = true) → (⟨true, true, true, false⟩ : PlayEnv).createOk = true →
        (⟨true, true, true, false⟩ : PlayEnv).volumeOk = true → (⟨true, true, true, false⟩ : PlayEnv).playOk = false →
      (playRecording uriState ⟨true, true, true, false⟩).state.error = some "Failed to play recording" ∧
      (playRecording uriState ⟨true, true, true, false⟩).state.isPlaying = true)) :=
  claim_C4 uriState ⟨true, true, true, false⟩ "file:///recording.wav" rfl

/-- Counterexample to C4 as stated: with an asset present and only the
`playAsync` call failing, the error is surfaced but the resulting state
has `isPlaying = true`, not the `false` the claim demands. -/
theorem claim_C4_cex :
    (playRecording uriState ⟨true, true, true, false⟩).state.error =
      some "Failed to play recording" ∧
    (playRecording uriState ⟨true, true, true, false⟩).state.isPlaying =
      true :=
  ⟨rfl, rfl⟩

/-- Claim C5 (amended): `startRecording`, `stopRecording`,
`playRecording` and `shareRecording` catch every provider failure and
convert it into the single latest-error value, for every state and every
combination of provider outcomes.  `stopPlayback`, contrary to the claim
as stated, has no handler: an exception escapes it exactly when a sound
handle exists and the provider's stop call fails. -/
theorem claim_C5 (s : ControllerState) (e1 : StartEnv) (e2 : StopEnv)
    (e3 : PlayEnv) (e4 : StopPlaybackEnv) (e5 : ShareEnv) :
    (startRecording s e1).escaped = false ∧
    (stopRecording s e2).escaped = false ∧
    (playRecording s e3).escaped = false ∧
    (shareRecording s e5).escaped = false ∧
    (stopPlayback s e4).escaped = (s.sound.isSome && !e4.stopOk) := by
  refine ⟨?_, ?_, ?_, ?_, ?_⟩
  · simp only [startRecording]; split_ifs <;> rfl
  · simp only [stopRecording]
    cases s.recording <;> [skip; split_ifs] <;> rfl
  · simp only [playRecording, playRecordingLoad]
    cases s.recordedURI <;> [skip; cases s.sound] <;>
      first
      | rfl
      | split_ifs <;> rfl
  · simp only [shareRecording]
    cases s.recordedURI <;> [skip; split_ifs] <;> rfl
  · simp only [stopPlayback]
    cases s.sound <;> [skip; split_ifs] <;> simp_all

/-- Counterexample to C5 as stated: at a concrete state with a loaded
sound and a failing stop call, the exception escapes `stopPlayback`
past the controller boundary. -/
theorem claim_C5_cex :
    (stopPlayback sndState ⟨false⟩).escaped = true := rfl

/-- Claim C7 (amended): a single latest-error slot evolves as follows
under each operation: a caught failure overwrites it with that
operation's message (so errors never accumulate), and — contrary to the
claim as stated — every other attempt, successful runs and the
permission-denied and no-op paths included, leaves the previously stored
error in place rather than overwriting it. -/
theorem claim_C7 (s : ControllerState) (e1 : StartEnv) (e2 : StopEnv)
    (e3 : PlayEnv) (e4 : StopPlaybackEnv) (e5 : ShareEnv) (l f : Bool) :
    (startRecording s e1).state.error =
      (if e1.permThrows ||
          (e1.granted && (!e1.modeOk || !e1.prepareOk || !e1.startOk))
       then some "Failed to start recording" else s.error) ∧
    (stopRecording s e2).state.error =
      (if s.recording.isSome && (!e2.stopOk || !e2.resetModeOk)
       then some "Failed to stop recording" else s.error) ∧
    (playRecording s e3).state.error =
      (if s.recordedURI.isNone then some "No recording to play"
       else if (s.sound.isSome && !e3.unloadOk) || !e3.createOk ||
               !e3.volumeOk || !e3.playOk
       then some "Failed to play recording" else s.error) ∧
    (stopPlayback s e4).state.error = s.error ∧
    (shareRecording s e5).state.error =
      (if s.recordedURI.isNone then some "No recording to share"
       else if !e5.availOk then some "Failed to share recording"
       else if !e5.available then some "Sharing is not available on this device"
       else if !e5.getInfoOk || !e5.shareOk
       then some "Failed to share recording" else s.error) ∧
    (onPlaybackStatusUpdate s l f).error = s.error := by
  refine ⟨?_, ?_, ?_, ?_, ?_, ?_⟩
  · simp only [startRecording]; split_ifs <;> simp_all
  · simp only [stopRecording]
    cases s.recording <;> [skip; split_ifs] <;> simp_all
  · simp only [playRecording, playRecordingLoad]
    cases s.recordedURI <;> [skip; cases s.sound] <;> (try split_ifs) <;>
      simp_all
  · simp only [stopPlayback]
    cases s.sound <;> [skip; split_ifs] <;> simp_all
  · simp only [shareRecording]
    cases s.recordedURI <;> [skip; split_ifs] <;> simp_all
  · simp only [onPlaybackStatusUpdate]; split_ifs <;> rfl

/-- Counterexample to C7 as stated: a fully successful new
`startRecording` attempt (it starts a recording) does NOT overwrite the
previously stored error, which survives unchanged. -/
theorem claim_C7_cex :
    (startRecording { initialState with error := some "Failed to stop recording" }
        allOkStart).state.error = some "Failed to stop recording" ∧
    (startRecording { initialState with error := some "Failed to stop recording" }
        allOkStart).state.isRecording = true :=
  ⟨rfl, rfl⟩

/-- Claim C8 (confirmed): with an existing AudioAsset, when the share
service's availability check completes and reports unavailable,
`shareRecording` surfaces "Sharing is not available on this device",
changes nothing else, and never invokes the share action. -/
theorem claim_C8 (s : ControllerState) (e : ShareEnv) (u : String)
    (hu : s.recordedURI = some u) (h1 : e.availOk = true)
    (h2 : e.available = false) :
    shareRecording s e =
      ⟨{ s with error := some "Sharing is not available on this device" },
       false, none⟩ := by
  simp [shareRecording, hu, h1, h2]

/-- Witness for C8 at a concrete state with an asset and an unavailable
share service. -/
theorem claim_C8_witness :
    shareRecording uriState ⟨true, false, true, true⟩ =
      ⟨{ uriState with error := some "Sharing is not available on this device" },
       false, none⟩ :=
  claim_C8 uriState ⟨true, false, true, true⟩ "file:///recording.wav" rfl rfl
    rfl

/-- Claim C9 (confirmed): after a fully successful `playRecording` the
state is playing, and firing the registered status callback with a
loaded, just-finished status yields exactly the same state with
`isPlaying := false` — a `true → false` transition of `isPlaying` with
no other change and no `stopPlayback` call involved. -/
theorem claim_C9 (s : ControllerState) (e : PlayEnv) (u : String)
    (hu : s.recordedURI = some u) (h1 : e.unloadOk = true)
    (h2 : e.createOk = true) (h3 : e.volumeOk = true)
    (h4 : e.playOk = true) :
    (playRecording s e).state.isPlaying = true ∧
    onPlaybackStatusUpdate (playRecording s e).state true true =
      { (playRecording s e).state with isPlaying := false } := by
  constructor
  · rcases hs : s.sound with _ | h <;>
      simp [playRecording, playRecordingLoad, hu, hs, h1, h2, h3, h4]
  · simp [onPlaybackStatusUpdate]

/-- Witness for C9 at a concrete fully successful playback from a state
with an asset. -/
theorem claim_C9_witness :
    (playRecording uriState allOkPlay).state.isPlaying = true ∧
    onPlaybackStatusUpdate (playRecording uriState allOkPlay).state true true =
      { (playRecording uriState allOkPlay).state with isPlaying := false } :=
  claim_C9 uriState allOkPlay "file:///recording.wav" rfl rfl rfl rfl rfl

/-- Claim C10 (confirmed): the share invocation `shareRecording`
performs is fully determined by the presence of the asset and the
availability/file-info outcomes, and whenever it happens the MIME-type
hint is the fixed string "audio/m4a" — independent of the asset —
even though every recording is prepared with a ".wav" linear-PCM
configuration on both mobile platforms (and "audio/wav" on web). -/
theorem claim_C10 (s : ControllerState) (e : ShareEnv) :
    (shareRecording s e).shareCall =
      (match s.recordedURI with
       | none => none
       | some uri =>
         if e.availOk && e.available && e.getInfoOk then
           some (uri, "audio/m4a", "Share your audio recording",
                 "public.audio")
         else none) ∧
    recordingOptions.android.extension = ".wav" ∧
    recordingOptions.ios.extension = ".wav" ∧
    recordingOptions.ios.outputFormat = "lpcm" ∧
    recordingOptions.web.mimeType = "audio/wav" := by
  refine ⟨?_, rfl, rfl, rfl, rfl⟩
  cases hu : s.recordedURI
  · simp [shareRecording, hu]
  · simp only [shareRecording, hu]
    split_ifs <;> simp_all

/-- The playback-handle invariant holds after `playRecordingLoad`
whenever no sound handle is loaded on entry. -/
theorem sndHandleInv_playRecordingLoad (s : ControllerState) (e : PlayEnv)
    (h : s.liveSnd = []) : sndHandleInv (playRecordingLoad s e).state := by
  simp only [playRecordingLoad]
  split_ifs <;> simp [sndHandleInv, h]

/-- Every handler call preserves the playback-handle invariant,
unconditionally. -/
theorem sndHandleInv_step (s : ControllerState) (op : Op)
    (h : sndHandleInv s) : sndHandleInv (step s op) := by
  cases op with
  | startRec e =>
    simp only [step, startRecording]
    split_ifs <;> simpa [sndHandleInv] using h
  | stopRec e =>
    simp only [step, stopRecording]
    cases s.recording <;> (try split_ifs) <;> simpa [sndHandleInv] using h
  | playRec e =>
    simp only [step, playRecording]
    cases hu : s.recordedURI with
    | none => simpa [sndHandleInv] using h
    | some u =>
      rcases h with hl | ⟨h0, hl, hs0⟩
      · cases hs : s.sound with
        | none => exact sndHandleInv_playRecordingLoad s e hl
        | some k =>
          split_ifs with hun
          · simp [sndHandleInv, hl]
          · exact sndHandleInv_playRecordingLoad _ e (by simp [hl])
      · simp only [hs0]
        split_ifs with hun
        · exact Or.inr ⟨h0, hl, rfl⟩
        · exact sndHandleInv_playRecordingLoad _ e
            (by simp [hl, List.erase_cons_head])
  | stopPlay e =>
    simp only [step, stopPlayback]
    rcases h with hl | ⟨h0, hl, hs0⟩
    · cases s.sound <;> (try split_ifs) <;> exact Or.inl hl
    · simp only [hs0]
      split_ifs
      · exact Or.inr ⟨h0, hl, hs0⟩
      · exact Or.inr ⟨h0, hl, rfl⟩
  | share e =>
    simp only [step, shareRecording]
    cases s.recordedURI <;> (try split_ifs) <;> simpa [sndHandleInv] using h
  | statusUpdate l f =>
    simp only [step, onPlaybackStatusUpdate]
    split_ifs <;> simpa [sndHandleInv] using h

/-- Every handler call issued under the spec's `startRecording`
precondition preserves the recording-handle invariant. -/
theorem recHandleInv_step (s : ControllerState) (op : Op)
    (hg : ∀ e, op = Op.startRec e → s.recording = none)
    (h : recHandleInv s) : recHandleInv (step s op) := by
  cases op with
  | startRec e =>
    have hrec : s.recording = none := hg e rfl
    have hl : s.liveRec = [] := by
      rcases h with hl | ⟨h0, hl, hr⟩
      · exact hl
      · rw [hrec] at hr; cases hr
    simp only [step, startRecording]
    split_ifs <;>
      first
      | exact Or.inl hl
      | exact Or.inr ⟨s.nextId, by simp [hl], rfl⟩
  | stopRec e =>
    simp only [step, stopRecording]
    rcases h with hl | ⟨h0, hl, hr⟩
    · cases s.recording <;> (try split_ifs) <;> exact Or.inl (by simp [hl])
    · simp only [hr]
      split_ifs
      · exact Or.inr ⟨h0, hl, rfl⟩
      · exact Or.inl (by simp [hl, List.erase_cons_head])
      · exact Or.inl (by simp [hl, List.erase_cons_head])
  | playRec e =>
    simp only [step, playRecording, playRecordingLoad]
    cases s.recordedURI <;> [skip; cases s.sound] <;> (try split_ifs) <;>
      simpa [recHandleInv] using h
  | stopPlay e =>
    simp only [step, stopPlayback]
    cases s.sound <;> (try split_ifs) <;> simpa [recHandleInv] using h
  | share e =>
    simp only [step, shareRecording]
    cases s.recordedURI <;> (try split_ifs) <;> simpa [recHandleInv] using h
  | statusUpdate l f =>
    simp only [step, onPlaybackStatusUpdate]
    split_ifs <;> simpa [recHandleInv] using h

/-- The playback-handle invariant holds after every trace. -/
theorem sndHandleInv_run (ops : List Op) :
    ∀ s, sndHandleInv s → sndHandleInv (run s ops) := by
  induction ops with
  | nil => exact fun _ h => h
  | cons op ops ih => exact fun s h => ih _ (sndHandleInv_step s op h)

/-- The recording-handle invariant holds after every trace that
respects the spec's `startRecording` precondition. -/
theorem recHandleInv_run (ops : List Op) :
    ∀ s, recHandleInv s → startGuardedB s ops = true →
      recHandleInv (run s ops) := by
  induction ops with
  | nil => exact fun _ h _ => h
  | cons op ops ih =>
    intro s h hg
    simp only [startGuardedB, Bool.and_eq_true] at hg
    refine ih _ (recHandleInv_step s op ?_ h) hg.2
    intro e he
    subst he
    simpa [Option.isNone_iff_eq_none] using hg.1

/-- Claim C1 (amended): for every sequence of handler calls at most one
PlaybackHandle is live at any time; and at most one RecordingHandle is
live for every sequence that never issues `startRecording` while a
recording handle is held.  That guard is the spec's own precondition but
— contrary to the claim as stated, which quantifies over ALL sequences —
the source never checks it, and an unguarded second `startRecording`
leaves two live recording handles. -/
theorem claim_C1 (ops : List Op) :
    (run initialState ops).liveSnd.length ≤ 1 ∧
    (startGuardedB initialState ops = true →
      (run initialState ops).liveRec.length ≤ 1) := by
  constructor
  · rcases sndHandleInv_run ops initialState (Or.inl rfl) with hl | ⟨h0, hl, _⟩ <;>
      simp [hl]
  · intro hg
    rcases recHandleInv_run ops initialState (Or.inl rfl) hg with hl | ⟨h0, hl, _⟩ <;>
      simp [hl]

/-- Witness for C1 on a concrete guarded record; stop; play; stop;
share trace. -/
theorem claim_C1_witness :
    (run initialState demoOps).liveSnd.length ≤ 1 ∧
    (run initialState demoOps).liveRec.length ≤ 1 :=
  ⟨(claim_C1 demoOps).1, (claim_C1 demoOps).2 rfl⟩

/-- Counterexample to C1 as stated: two consecutive fully successful
`startRecording` calls leave TWO live recording handles (the first is
replaced in the `recording` state variable without ever being
stopped). -/
theorem claim_C1_cex :
    ¬ (run initialState
        [Op.startRec allOkStart, Op.startRec allOkStart]).liveRec.length ≤ 1 := by
  decide

/-- A handler call issued while the two lifecycles are serialized
(`startRec` only while not playing, `playRec` only while not recording)
preserves mutual exclusion of the `isRecording` / `isPlaying` flags. -/
theorem mutex_step (s : ControllerState) (op : Op)
    (hg1 : ∀ e, op = Op.startRec e → s.isPlaying = false)
    (hg2 : ∀ e, op = Op.playRec e → s.isRecording = false)
    (h : ¬(s.isRecording = true ∧ s.isPlaying = true)) :
    ¬((step s op).isRecording = true ∧ (step s op).isPlaying = true) := by
  cases op with
  | startRec e =>
    have hp := hg1 e rfl
    simp only [step, startRecording]
    split_ifs <;> simp [hp]
  | stopRec e =>
    simp only [step, stopRecording]
    cases s.recording <;> (try split_ifs) <;> simp_all
  | playRec e =>
    have hr := hg2 e rfl
    simp only [step, playRecording, playRecordingLoad]
    cases s.recordedURI <;> [skip; cases s.sound] <;> (try split_ifs) <;>
      simp [hr]
  | stopPlay e =>
    simp only [step, stopPlayback]
    cases s.sound <;> (try split_ifs) <;> simp_all
  | share e =>
    simp only [step, shareRecording]
    cases s.recordedURI <;> (try split_ifs) <;> simp_all
  | statusUpdate l f =>
    simp only [step, onPlaybackStatusUpdate]
    split_ifs <;> simp_all

/-- Mutual exclusion of the flags holds along every serialized trace. -/
theorem mutex_run (ops : List Op) :
    ∀ s, serializedB s ops = true →
      ¬(s.isRecording = true ∧ s.isPlaying = true) →
      ¬((run s ops).isRecording = true ∧ (run s ops).isPlaying = true) := by
  induction ops with
  | nil => exact fun _ _ h => h
  | cons op ops ih =>
    intro s hg h
    simp only [serializedB, Bool.and_eq_true] at hg
    refine ih _ hg.2 (mutex_step s op ?_ ?_ h)
    · intro e he; subst he; simpa using hg.1
    · intro e he; subst he; simpa using hg.1

/-- Claim C6 (amended): `isRecording` and `isPlaying` are never both
true along any trace that serializes the two lifecycles (never starting
a recording while playing nor a playback while recording).  Contrary to
the claim as stated, which quantifies over ALL sequences, the source
does not itself serialize them: record; stop; record; play makes both
flags true. -/
theorem claim_C6 (ops : List Op)
    (hg : serializedB initialState ops = true) :
    ¬((run initialState ops).isRecording = true ∧
      (run initialState ops).isPlaying = true) :=
  mutex_run ops initialState hg (by simp [initialState])

/-- Witness for C6 on a concrete serialized record; stop; play; stop;
share trace. -/
theorem claim_C6_witness :
    ¬((run initialState demoOps).isRecording = true ∧
      (run initialState demoOps).isPlaying = true) :=
  claim_C6 demoOps rfl

/-- Counterexample to C6 as stated: after the fully successful sequence
record; stop; record again; play — each step accepted by the component,
and reachable through its own UI — both flags are true at once. -/
theorem claim_C6_cex :
    (run initialState [Op.startRec allOkStart, Op.stopRec allOkStop,
        Op.startRec allOkStart, Op.playRec allOkPlay]).isRecording = true ∧
    (run initialState [Op.startRec allOkStart, Op.stopRec allOkStop,
        Op.startRec allOkStart, Op.playRec allOkPlay]).isPlaying = true :=
  ⟨rfl, rfl⟩

end AudioRecorderDemo
